import Mathlib

/-!
# Verification of the MindBridge risk-assessment pipeline

A shallow embedding of the risk-assessment pipeline of `src/mindbridge.py`:
the lexicon matchers, the fallback sentiment strategy, the Gemini-backed
strategy's failure handling, the crisis-keyword safety override, the
recommendation engine and the mock patient store.  Text is modelled as
`List Char`, Python floats as `ℚ`, the loosely-typed analysis dictionaries
as a record of optional fields, and the wall clock as an explicit `now`
parameter.
-/

namespace Mindbridge

/-- Membership test for the punctuation set `'.,!?'` used by
`str.strip('.,!?')` in `_simple_analysis` (src/mindbridge.py line 195). -/
def isPunct (c : Char) : Bool :=
  c == '.' || c == ',' || c == '!' || c == '?'

/-- Python `str.lower()`, restricted to ASCII letters (the only case that the
source's fixed lexicons and the verified scenarios exercise). -/
def pyLower (l : List Char) : List Char :=
  l.map Char.toLower

/-- Python `str.split()` with no argument: split on runs of whitespace and
drop empty pieces (src/mindbridge.py line 194). -/
def pyTokens (l : List Char) : List (List Char) :=
  (l.splitOnP Char.isWhitespace).filter (fun t => !t.isEmpty)

/-- Python `w.strip('.,!?')`: remove all leading and trailing characters of
the set `'.,!?'` (src/mindbridge.py lines 195-196). -/
def pyStrip (w : List Char) : List Char :=
  ((w.dropWhile isPunct).reverse.dropWhile isPunct).reverse

/-- The positive-word lexicon of `GeminiSentimentAnalyzer._init_fallback`
(src/mindbridge.py lines 82-87). -/
def positive_words : List (List Char) :=
  ["good", "great", "excellent", "amazing", "wonderful", "fantastic",
   "happy", "joy", "love", "like", "enjoy", "pleased", "satisfied",
   "hope", "optimistic", "confident", "grateful", "thankful", "blessed",
   "better", "improving", "positive", "calm", "relaxed"].map String.toList

/-- The negative-word lexicon of `GeminiSentimentAnalyzer._init_fallback`
(src/mindbridge.py lines 89-95). -/
def negative_words : List (List Char) :=
  ["bad", "terrible", "awful", "horrible", "sad", "angry", "hate",
   "dislike", "upset", "frustrated", "disappointed", "worried",
   "anxious", "anxiety", "depressed", "depression", "lonely", "hopeless",
   "worthless", "stress", "stressed", "overwhelmed", "exhausted", "nervous",
   "scared", "fear", "panic", "crying", "tired"].map String.toList

/-- The crisis-phrase lexicon of `MentalHealthAnalyzer.__init__`
(src/mindbridge.py lines 301-305). -/
def crisis_keywords : List (List Char) :=
  ["suicide", "suicidal", "kill myself", "end it all", "die", "dying",
   "death wish", "no reason to live", "better off dead", "harm myself",
   "hurt myself", "end my life", "want to die", "cant go on"].map String.toList

/-- The token-based lexicon count of `_simple_analysis`
(src/mindbridge.py lines 195-196): the number of whitespace tokens of the
lowered text whose form stripped of `'.,!?'` is exactly a lexicon member. -/
def pyCountTokenMatches (lex : List (List Char)) (lowered : List Char) : ℕ :=
  (pyTokens lowered).countP (fun w => lex.contains (pyStrip w))

/-- The substring-based lexicon count of the crisis override in
`analyze_text` (src/mindbridge.py line 314): the number of lexicon members
that occur as contiguous substrings of the lowered text (Python `in`). -/
def pyCountSubstrMatches (lex : List (List Char)) (lowered : List Char) : ℕ :=
  lex.countP (fun k => decide (k <:+: lowered))

/-- Python `max` on two numbers: the first argument when it is the larger. -/
def pyMax (a b : ℚ) : ℚ :=
  if b ≤ a then a else b

/-- Python `min` on two numbers: the first argument when it is the smaller. -/
def pyMin (a b : ℚ) : ℚ :=
  if a ≤ b then a else b

/-- The loosely-typed analysis dictionary that flows through the pipeline.
Every key that the source reads with `.get` or guards with `in` is optional;
`none` models an absent key. -/
structure Analysis where
  sentiment_score : Option ℚ
  is_sarcastic : Option Bool
  true_emotion : Option String
  depression_indicators : Option ℤ
  anxiety_indicators : Option ℤ
  crisis_indicators : Option ℤ
  risk_level : Option String
  emotional_state : Option String
  key_concerns : Option (List String)
  confidence : Option ℚ
  analysis_timestamp : Option String
  ai_model : Option String
  deriving DecidableEq

/-- An analysis dictionary with every key absent. -/
def emptyAnalysis : Analysis :=
  ⟨none, none, none, none, none, none, none, none, none, none, none, none⟩

/-- `GeminiSentimentAnalyzer._simple_analysis` (src/mindbridge.py
lines 192-216).  The wall-clock timestamp is the explicit `now` argument. -/
def simple_analysis (now : String) (text : List Char) : Analysis :=
  let words := pyTokens (pyLower text)
  let positive := pyCountTokenMatches positive_words (pyLower text)
  let negative := pyCountTokenMatches negative_words (pyLower text)
  let score : ℚ :=
    if 0 < words.length then
      pyMax (-1) (pyMin 1 (((positive : ℚ) - (negative : ℚ)) / (words.length : ℚ) * 2))
    else 0
  { sentiment_score := some score
    is_sarcastic := some false
    true_emotion := some "unknown"
    depression_indicators := some (negative : ℤ)
    anxiety_indicators := some (negative : ℤ)
    crisis_indicators := some 0
    risk_level := some (if 2 < negative then "Medium" else "Low")
    emotional_state := some "Basic analysis mode (AI unavailable)"
    key_concerns := some []
    confidence := some (1 / 2 : ℚ)
    analysis_timestamp := some now
    ai_model := some "simple-fallback" }

/-- The observable outcome of the remote (Gemini) interaction performed by
`_gemini_analysis` (src/mindbridge.py lines 112-190).  `netError` models
`requests.post` raising (connection error or the 30s timeout), `badStatus`
a non-200 HTTP response, `badJson` a 200 response whose content does not
yield a well-formed JSON analysis object after brace extraction, and
`parsed` a successfully decoded analysis dictionary. -/
inductive RemoteOutcome where
  | netError (msg : String)
  | badStatus (code : ℕ) (body : String)
  | badJson (content : String)
  | parsed (a : Analysis)
  deriving DecidableEq

/-- `True` exactly on the three failing constructors of `RemoteOutcome`. -/
def RemoteOutcome.isFailure : RemoteOutcome → Bool
  | .parsed _ => false
  | _ => true

/-- `GeminiSentimentAnalyzer._gemini_analysis` (src/mindbridge.py
lines 112-190): every failing outcome raises (modelled as `Except.error`),
a decoded analysis gets the timestamp and the model identifier attached. -/
def gemini_analysis (now : String) : RemoteOutcome → Except String Analysis
  | .netError msg => .error msg
  | .badStatus code body => .error ("API returned " ++ toString code ++ ": " ++ body.take 500)
  | .badJson content => .error ("no valid JSON object in response: " ++ content)
  | .parsed a =>
      .ok { a with analysis_timestamp := some now, ai_model := some "gemini-2.0-flash" }

/-- `GeminiSentimentAnalyzer.analyze_sentiment` (src/mindbridge.py
lines 97-110).  `use_fallback` is the strategy flag fixed at construction;
the `try/except` around the remote path is the `match` on the result of
`gemini_analysis`: any raised error is swallowed and replaced by
`simple_analysis`.  The conversation history only alters the remote prompt,
so it does not appear beyond the `remote` outcome parameter. -/
def analyze_sentiment (now : String) (use_fallback : Bool) (remote : RemoteOutcome)
    (text : List Char) : Analysis :=
  if use_fallback then
    simple_analysis now text
  else
    match gemini_analysis now remote with
    | .ok result => result
    | .error _ => simple_analysis now text

/-- Python `max` on two integers: the first argument when it is the larger. -/
def pyIntMax (a b : ℤ) : ℤ :=
  if b ≤ a then a else b

/-- The sentinel note inserted by the crisis override
(src/mindbridge.py line 321); the source spells it with an ASCII hyphen. -/
def crisis_sentinel : String :=
  "CRISIS KEYWORDS DETECTED - IMMEDIATE INTERVENTION REQUIRED"

/-- The crisis-keyword safety override step of
`MentalHealthAnalyzer.analyze_text` (src/mindbridge.py lines 312-321),
as a function of the analysis record and the raw text. -/
def applyCrisisOverride (analysis : Analysis) (text : List Char) : Analysis :=
  let text_lower := pyLower text
  let crisis_count := pyCountSubstrMatches crisis_keywords text_lower
  if 0 < crisis_count then
    { analysis with
      risk_level := some "Critical"
      crisis_indicators := some (pyIntMax (analysis.crisis_indicators.getD 0) (crisis_count : ℤ))
      key_concerns := some (crisis_sentinel :: analysis.key_concerns.getD []) }
  else
    analysis

/-- `MentalHealthAnalyzer.analyze_text` (src/mindbridge.py lines 307-323):
run the configured sentiment strategy, then the crisis override. -/
def analyze_text (now : String) (use_fallback : Bool) (remote : RemoteOutcome)
    (text : List Char) : Analysis :=
  applyCrisisOverride (analyze_sentiment now use_fallback remote text) text

/-- The recommendation record built by
`MentalHealthAnalyzer.generate_recommendations`
(src/mindbridge.py lines 332-337). -/
structure Recommendations where
  immediate_action : String
  recommendations : List String
  follow_up : String
  additional_notes : List String
  deriving DecidableEq

/-- Python substring test `needle in hay` on strings. -/
def pySubstr (needle hay : String) : Bool :=
  decide (needle.toList <:+: hay.toList)

/-- The sarcasm note of `generate_recommendations`
(src/mindbridge.py lines 340-344). -/
def sarcasmNote (true_emotion : String) : String :=
  "⚠️ Sarcasm/Masking Detected: Patient may be hiding true feelings. True emotion: "
    ++ true_emotion

/-- Python float formatting `:.0%`: the value as a whole-number percentage.
The half-way rounding direction differs from CPython round-half-even, which
no verified statement depends on. -/
def fmtPercent (c : ℚ) : String :=
  toString (round (100 * c)) ++ "%"

/-- The low-confidence note of `generate_recommendations`
(src/mindbridge.py lines 347-351). -/
def confidenceNote (c : ℚ) : String :=
  "ℹ️ AI Confidence: " ++ fmtPercent c ++ " - Consider additional clinical assessment"

/-- The key-concerns note of `generate_recommendations`
(src/mindbridge.py lines 354-356). -/
def concernsNote (key_concerns : List String) : String :=
  "🎯 Primary concerns: " ++ String.intercalate ", " (key_concerns.take 3)

/-- The emotional-state note of `generate_recommendations`
(src/mindbridge.py lines 359-360). -/
def emotionalStateNote (emotional_state : String) : String :=
  "Emotional state: " ++ emotional_state

/-- `MentalHealthAnalyzer.generate_recommendations`
(src/mindbridge.py lines 325-414).  The four `additional_notes` appends run
in source order (sarcasm, confidence, concerns, emotional state), then the
risk tier fills the remaining fields; `patient_history` is unused by the
source body and therefore absent here. -/
def generate_recommendations (analysis_result : Analysis) : Recommendations :=
  let risk_level := analysis_result.risk_level.getD "Low"
  let emotional_state := analysis_result.emotional_state.getD ""
  let key_concerns := analysis_result.key_concerns.getD []
  let is_sarcastic := analysis_result.is_sarcastic.getD false
  let confidence := analysis_result.confidence.getD 0
  let notes1 : List String :=
    if is_sarcastic then [sarcasmNote (analysis_result.true_emotion.getD "unknown")] else []
  let notes2 : List String :=
    if 0 < confidence ∧ confidence < 0.6 then notes1 ++ [confidenceNote confidence] else notes1
  let notes3 : List String :=
    if key_concerns ≠ [] then notes2 ++ [concernsNote key_concerns] else notes2
  let notes4 : List String :=
    if emotional_state ≠ "" ∧ ¬ pySubstr "Basic analysis" emotional_state = true then
      notes3 ++ [emotionalStateNote emotional_state]
    else notes3
  if risk_level = "Critical" then
    { immediate_action := "🚨 EMERGENCY - IMMEDIATE INTERVENTION REQUIRED"
      recommendations :=
        ["Contact emergency services (999) immediately if imminent danger",
         "Activate crisis response team NOW",
         "Do NOT leave patient alone",
         "Immediate psychiatric evaluation required within 1 hour",
         "Implement safety planning protocol",
         "Contact patient\x27s emergency contact immediately"]
      follow_up := "Continuous monitoring - within 1 hour"
      additional_notes := notes4 }
  else if risk_level = "High" then
    { immediate_action := "⚠️ URGENT - Mental health referral needed within 24-48 hours"
      recommendations :=
        ["Schedule urgent psychiatrist consultation within 48 hours",
         "Consider immediate counseling/therapy referral",
         "Review and adjust current medications if applicable",
         "Implement daily check-ins (phone or in-person)",
         "Provide crisis hotline numbers: Befrienders 03-76272929",
         "Assess support system availability"]
      follow_up := "Within 24-48 hours, then every 2-3 days"
      additional_notes := notes4 }
  else if risk_level = "Medium" then
    { immediate_action := "📋 Schedule follow-up appointment within 1-2 weeks"
      recommendations :=
        ["Consider counseling or therapy referral",
         "Discuss lifestyle modifications (sleep, exercise, diet)",
         "Introduce stress management techniques",
         "Evaluate sleep patterns and quality",
         "Weekly check-ins via phone or video chat"]
      follow_up := "Within 1-2 weeks"
      additional_notes := notes4 }
  else
    { immediate_action := "✅ Continue supportive care and monitoring"
      recommendations :=
        ["Maintain regular check-ups",
         "Encourage healthy lifestyle habits",
         "Provide mental health education resources",
         "Keep communication channels open",
         "Preventive mental wellness strategies"]
      follow_up := "Regular scheduled visits"
      additional_notes := notes4 }

/-- An entry of a patient's `medical_history` list
(src/mindbridge.py lines 228-232). -/
structure MedicalHistoryEntry where
  date : String
  diagnosis : String
  doctor : String
  deriving DecidableEq

/-- An entry of a patient's `medications` list
(src/mindbridge.py lines 233-237). -/
structure MedicationEntry where
  name : String
  dosage : String
  frequency : String
  deriving DecidableEq

/-- An entry of a patient's `mental_health_history` list
(src/mindbridge.py lines 240-242). -/
structure MentalHealthHistoryEntry where
  date : String
  condition : String
  severity : String
  deriving DecidableEq

/-- A chat message `{role, content}` (src/mindbridge.py line 726). -/
structure Message where
  role : String
  content : String
  deriving DecidableEq

/-- The session record appended by the chat page
(src/mindbridge.py lines 742-746). -/
structure SessionData where
  timestamp : String
  messages : List Message
  analysis : Analysis
  deriving DecidableEq

/-- A patient record of the mock EMR store (src/mindbridge.py
lines 221-284).  The `chat_sessions` key is absent until the first session
is recorded, modelled by `none`. -/
structure PatientRecord where
  name : String
  age : ℕ
  gender : String
  phone : String
  email : String
  medical_history : List MedicalHistoryEntry
  medications : List MedicationEntry
  allergies : List String
  last_visit : String
  mental_health_history : List MentalHealthHistoryEntry
  chat_sessions : Option (List SessionData)
  deriving DecidableEq

/-- The mock EMR store: the `self.patients` dictionary, as an association
list keyed by IC number (src/mindbridge.py lines 219-284). -/
structure EMRDatabase where
  patients : List (String × PatientRecord)
  deriving DecidableEq

/-- `EMRDatabase.get_patient` (src/mindbridge.py lines 286-287):
`self.patients.get(ic_number)`. -/
def get_patient (db : EMRDatabase) (ic_number : String) : Option PatientRecord :=
  db.patients.lookup ic_number

/-- Append a session to one record, creating the `chat_sessions` list when
the key is absent (src/mindbridge.py lines 291-293). -/
def pushSession (r : PatientRecord) (session_data : SessionData) : PatientRecord :=
  { r with chat_sessions := some (r.chat_sessions.getD [] ++ [session_data]) }

/-- `EMRDatabase.add_session_record` (src/mindbridge.py lines 289-293):
guarded by `ic_number in self.patients`; the Python method returns `None`
either way, so the result type carries only the (possibly unchanged)
store. -/
def add_session_record (db : EMRDatabase) (ic_number : String)
    (session_data : SessionData) : EMRDatabase :=
  if (db.patients.lookup ic_number).isSome then
    { patients :=
        db.patients.map (fun kv => if kv.1 == ic_number then (kv.1, pushSession kv.2 session_data) else kv) }
  else
    db

/-- The three seeded patients of `EMRDatabase.__init__`
(src/mindbridge.py lines 221-284). -/
def initial_emr : EMRDatabase :=
  { patients :=
      [("123456789012",
        { name := "Ahmad bin Ali", age := 35, gender := "Male",
          phone := "012-3456789", email := "ahmad.ali@email.com",
          medical_history :=
            [⟨"2024-01-15", "Hypertension", "Dr. Lim"⟩,
             ⟨"2023-08-22", "Type 2 Diabetes", "Dr. Wong"⟩,
             ⟨"2023-03-10", "Anxiety Disorder", "Dr. Rahman"⟩],
          medications :=
            [⟨"Amlodipine", "5mg", "Once daily"⟩,
             ⟨"Metformin", "500mg", "Twice daily"⟩,
             ⟨"Lorazepam", "0.5mg", "As needed"⟩],
          allergies := ["Penicillin", "Shellfish"],
          last_visit := "2024-01-15",
          mental_health_history := [⟨"2023-03-10", "Anxiety Disorder", "Moderate"⟩],
          chat_sessions := none }),
       ("987654321098",
        { name := "Siti Nurhaliza", age := 28, gender := "Female",
          phone := "013-9876543", email := "siti.nur@email.com",
          medical_history :=
            [⟨"2024-02-20", "Migraine", "Dr. Tan"⟩,
             ⟨"2023-11-05", "Depression", "Dr. Ahmad"⟩],
          medications :=
            [⟨"Sumatriptan", "50mg", "As needed"⟩,
             ⟨"Sertraline", "50mg", "Once daily"⟩],
          allergies := ["Aspirin"],
          last_visit := "2024-02-20",
          mental_health_history := [⟨"2023-11-05", "Major Depression", "Moderate to Severe"⟩],
          chat_sessions := none }),
       ("456789123456",
        { name := "Raj Kumar", age := 42, gender := "Male",
          phone := "014-5678901", email := "raj.kumar@email.com",
          medical_history :=
            [⟨"2024-03-01", "Chronic Back Pain", "Dr. Lee"⟩,
             ⟨"2023-12-15", "Insomnia", "Dr. Chong"⟩],
          medications :=
            [⟨"Ibuprofen", "400mg", "Three times daily"⟩,
             ⟨"Zolpidem", "10mg", "Before bedtime"⟩],
          allergies := ["None known"],
          last_visit := "2024-03-01",
          mental_health_history := [⟨"2023-12-15", "Sleep Disorder", "Mild"⟩],
          chat_sessions := none })] }

/-- A fixed timestamp used to instantiate the `now` clock parameter in
closed statements. -/
def ts0 : String :=
  "2026-10-12 08:00:00 +08"

/-- The end-to-end scenario input text of the specification. -/
def scenarioText : List Char :=
  "I want to kill myself".toList

/-- The sentinel string exactly as the specification quotes it, spelled
with an em dash where the source writes an ASCII hyphen. -/
def spec_sentinel : String :=
  "CRISIS KEYWORDS DETECTED — IMMEDIATE INTERVENTION REQUIRED"

/-- An analysis dictionary whose only present key is a confidence of `0`,
as a remote strategy reporting zero confidence would produce. -/
def zeroConfAnalysis : Analysis :=
  { emptyAnalysis with confidence := some 0 }

/-- The sarcasm block of `additional_notes`: a singleton exactly when the
sarcasm flag is set. -/
def sarcasmPart (a : Analysis) : List String :=
  if a.is_sarcastic.getD false then [sarcasmNote (a.true_emotion.getD "unknown")] else []

/-- The low-confidence block of `additional_notes`: a singleton exactly
when `0 < confidence < 0.6`. -/
def confidencePart (a : Analysis) : List String :=
  if 0 < a.confidence.getD 0 ∧ a.confidence.getD 0 < 0.6 then
    [confidenceNote (a.confidence.getD 0)]
  else []

/-- The key-concerns block of `additional_notes`: a singleton exactly when
`key_concerns` is non-empty. -/
def concernsPart (a : Analysis) : List String :=
  if a.key_concerns.getD [] ≠ [] then [concernsNote (a.key_concerns.getD [])] else []

/-- The emotional-state block of `additional_notes`: a singleton exactly
when `emotional_state` is non-empty and is not the fallback placeholder. -/
def emotionalStatePart (a : Analysis) : List String :=
  if a.emotional_state.getD "" ≠ ""
      ∧ ¬ pySubstr "Basic analysis" (a.emotional_state.getD "") = true then
    [emotionalStateNote (a.emotional_state.getD "")]
  else []

/-! ## Helper lemmas -/

theorem le_pyMax_left (a b : ℚ) : a ≤ pyMax a b := by
  unfold pyMax
  split
  · exact le_refl a
  · next h => exact (not_le.mp h).le

theorem pyMax_le {a b c : ℚ} (h1 : a ≤ c) (h2 : b ≤ c) : pyMax a b ≤ c := by
  unfold pyMax
  split
  · exact h1
  · exact h2

theorem pyMin_le_left (a b : ℚ) : pyMin a b ≤ a := by
  unfold pyMin
  split
  · exact le_refl a
  · next h => exact (not_le.mp h).le

theorem le_pyIntMax_right (a b : ℤ) : b ≤ pyIntMax a b := by
  unfold pyIntMax
  split
  · next h => exact h
  · exact le_refl b

theorem modifyHead_append_left {α : Type} (f : α → α) (l m : List α) (h : l ≠ []) :
    (l ++ m).modifyHead f = l.modifyHead f ++ m := by
  cases l with
  | nil => exact absurd rfl h
  | cons a t => rfl

theorem splitOnP_append_sep {α : Type} (p : α → Bool) (x : α) (hx : p x = true)
    (A B : List α) : (A ++ x :: B).splitOnP p = A.splitOnP p ++ B.splitOnP p := by
  induction A with
  | nil => simp [List.splitOnP_cons, hx]
  | cons a A ih =>
    by_cases ha : p a = true
    · simp [List.splitOnP_cons, ha, ih]
    · simp only [List.cons_append, List.splitOnP_cons, ha, Bool.false_eq_true, if_false, ih]
      rw [modifyHead_append_left _ _ _ (List.splitOnP_ne_nil p A)]

theorem pyTokens_append_sep (A B : List Char) :
    pyTokens (A ++ ' ' :: B) = pyTokens A ++ pyTokens B := by
  unfold pyTokens
  rw [splitOnP_append_sep Char.isWhitespace ' ' (by decide), List.filter_append]

theorem pyLower_append_sep (A B : List Char) :
    pyLower (A ++ ' ' :: B) = pyLower A ++ ' ' :: pyLower B := by
  unfold pyLower
  rw [List.map_append, List.map_cons]
  rfl

/-! ## Claim theorems -/

/-- C1: for every analysis produced by a sentiment strategy (any remote
outcome, either strategy flag) and every raw text whose lowercasing
contains at least one crisis phrase, `analyze_text` returns risk_level
`"Critical"` and crisis_indicators at least the number of crisis phrases
occurring in the text, regardless of the risk_level the strategy
returned. -/
theorem c1_crisis_override_forces_critical (now : String) (use_fallback : Bool)
    (remote : RemoteOutcome) (text : List Char)
    (h : 0 < pyCountSubstrMatches crisis_keywords (pyLower text)) :
    (analyze_text now use_fallback remote text).risk_level = some "Critical" ∧
      (pyCountSubstrMatches crisis_keywords (pyLower text) : ℤ) ≤
        (analyze_text now use_fallback remote text).crisis_indicators.getD 0 := by
  unfold analyze_text applyCrisisOverride
  rw [if_pos h]
  exact ⟨rfl, le_pyIntMax_right _ _⟩

/-- C1 witness: the scenario text contains the crisis phrase
`"kill myself"`, and the conclusion of `c1_crisis_override_forces_critical`
holds there for a fallback-strategy run. -/
theorem c1_witness :
    0 < pyCountSubstrMatches crisis_keywords (pyLower scenarioText) ∧
      ((analyze_text ts0 true (RemoteOutcome.netError "timeout") scenarioText).risk_level
          = some "Critical" ∧
        (pyCountSubstrMatches crisis_keywords (pyLower scenarioText) : ℤ) ≤
          (analyze_text ts0 true (RemoteOutcome.netError "timeout")
              scenarioText).crisis_indicators.getD 0) :=
  ⟨by decide, c1_crisis_override_forces_critical ts0 true (RemoteOutcome.netError "timeout")
    scenarioText (by decide)⟩

/-- C3 counterexample: on the scenario text the first key concern is the
source's sentinel, which is spelled with an ASCII hyphen and therefore
differs from the em-dash sentinel string the claim quotes. -/
theorem c3_counterexample :
    ((analyze_text ts0 true (RemoteOutcome.netError "") scenarioText).key_concerns.getD
          []).head? = some crisis_sentinel ∧
      ¬ ((analyze_text ts0 true (RemoteOutcome.netError "") scenarioText).key_concerns.getD
          []).head? = some spec_sentinel := by
  constructor
  · decide
  · decide

/-- C3 amended: for the input `"I want to kill myself"` and every strategy
outcome, `analyze_text` yields risk_level `"Critical"`,
crisis_indicators at least `1`, and the hyphen-spelled sentinel
`"CRISIS KEYWORDS DETECTED - IMMEDIATE INTERVENTION REQUIRED"` as the
first key concern. -/
theorem c3_scenario_amended (now : String) (use_fallback : Bool) (remote : RemoteOutcome) :
    (analyze_text now use_fallback remote scenarioText).risk_level = some "Critical" ∧
      (1 : ℤ) ≤ (analyze_text now use_fallback remote scenarioText).crisis_indicators.getD 0 ∧
      ((analyze_text now use_fallback remote scenarioText).key_concerns.getD []).head?
        = some crisis_sentinel := by
  have hcount : pyCountSubstrMatches crisis_keywords (pyLower scenarioText) = 1 := by decide
  unfold analyze_text applyCrisisOverride
  simp only [hcount]
  rw [if_pos (by norm_num : (0 : ℕ) < 1)]
  refine ⟨rfl, ?_, rfl⟩
  calc (1 : ℤ) = ((1 : ℕ) : ℤ) := rfl
    _ ≤ _ := le_pyIntMax_right _ _

/-- C4: whenever the remote path fails (network error or timeout, non-200
status, malformed or absent JSON), `analyze_sentiment` returns the local
fallback analysis instead of propagating the failure, and the result is
marked `ai_model = "simple-fallback"`. -/
theorem c4_remote_failure_falls_back (now : String) (remote : RemoteOutcome)
    (text : List Char) (h : remote.isFailure = true) :
    analyze_sentiment now false remote text = simple_analysis now text ∧
      (analyze_sentiment now false remote text).ai_model = some "simple-fallback" := by
  cases remote with
  | netError msg => exact ⟨rfl, rfl⟩
  | badStatus code body => exact ⟨rfl, rfl⟩
  | badJson content => exact ⟨rfl, rfl⟩
  | parsed a => simp [RemoteOutcome.isFailure] at h

/-- C4 witness: a concrete timeout outcome is a failure and falls back. -/
theorem c4_witness :
    (RemoteOutcome.netError "Read timed out. (read timeout=30)").isFailure = true ∧
      (analyze_sentiment ts0 false (RemoteOutcome.netError "Read timed out. (read timeout=30)")
            ("hello".toList)
          = simple_analysis ts0 ("hello".toList) ∧
        (analyze_sentiment ts0 false
              (RemoteOutcome.netError "Read timed out. (read timeout=30)")
              ("hello".toList)).ai_model = some "simple-fallback") :=
  ⟨rfl, c4_remote_failure_falls_back ts0
    (RemoteOutcome.netError "Read timed out. (read timeout=30)") ("hello".toList) rfl⟩

/-- C2: evaluating the crisis-override step a second time on its own
output for the scenario text.  risk_level and crisis_indicators are
preserved, but the sentinel note is inserted again, so `key_concerns`
begins with two copies of it: the override step is not idempotent on
`key_concerns`, against the specification's explicit guard requirement. -/
theorem c2_double_override_duplicates_sentinel :
    ((applyCrisisOverride (analyze_text ts0 true (RemoteOutcome.netError "") scenarioText)
            scenarioText).key_concerns.getD []).take 2
        = [crisis_sentinel, crisis_sentinel] ∧
      (applyCrisisOverride (analyze_text ts0 true (RemoteOutcome.netError "") scenarioText)
            scenarioText).risk_level
        = (analyze_text ts0 true (RemoteOutcome.netError "") scenarioText).risk_level ∧
      (applyCrisisOverride (analyze_text ts0 true (RemoteOutcome.netError "") scenarioText)
            scenarioText).crisis_indicators
        = (analyze_text ts0 true (RemoteOutcome.netError "") scenarioText).crisis_indicators := by
  refine ⟨by decide, by decide, by decide⟩

/-- C5 counterexample: for the text `"sadness"` the fallback's
negative-word count (surfaced as `depression_indicators`) is `0`, while the
number of negative-lexicon members occurring as substrings is `1`
(`"sad"` occurs inside `"sadness"`): the positive/negative lexicon counts
are not the substring counts the claim describes. -/
theorem c5_counterexample :
    (simple_analysis ts0 ("sadness".toList)).depression_indicators = some 0 ∧
      pyCountTokenMatches negative_words (pyLower ("sadness".toList)) = 0 ∧
      pyCountSubstrMatches negative_words (pyLower ("sadness".toList)) = 1 := by
  refine ⟨by decide, by decide, by decide⟩

/-- C5 amended: the crisis-phrase count is substring-based (positive
exactly when some crisis phrase occurs as a substring of the lowered
text), while the positive/negative counts count whitespace tokens whose
punctuation-stripped form is exactly a lexicon member (the negative count
is surfaced as `depression_indicators`); empty text yields a count of zero
for every lexicon under both matchers. -/
theorem c5_lexicon_count_semantics (now : String) (text : List Char) :
    (simple_analysis now text).depression_indicators
        = some (pyCountTokenMatches negative_words (pyLower text) : ℤ) ∧
      (0 < pyCountSubstrMatches crisis_keywords (pyLower text)
        ↔ ∃ k ∈ crisis_keywords, k <:+: pyLower text) ∧
      pyCountTokenMatches positive_words [] = 0 ∧
      pyCountTokenMatches negative_words [] = 0 ∧
      pyCountTokenMatches crisis_keywords [] = 0 ∧
      pyCountSubstrMatches positive_words [] = 0 ∧
      pyCountSubstrMatches negative_words [] = 0 ∧
      pyCountSubstrMatches crisis_keywords [] = 0 := by
  refine ⟨rfl, ?_, by decide, by decide, by decide, by decide, by decide, by decide⟩
  unfold pyCountSubstrMatches
  rw [List.countP_pos_iff]
  simp only [decide_eq_true_eq]

/-- C6: the fallback sentiment score always lies in `[-1, 1]`; with a
positive token count it equals the clamp of
`(positive - negative) / token_count * 2` to `[-1, 1]`, and with zero
tokens it equals `0`. -/
theorem c6_sentiment_score_clamped (now : String) (text : List Char) :
    ((-1 : ℚ) ≤ (simple_analysis now text).sentiment_score.getD 0 ∧
        (simple_analysis now text).sentiment_score.getD 0 ≤ 1) ∧
      (0 < (pyTokens (pyLower text)).length →
        (simple_analysis now text).sentiment_score.getD 0
          = pyMax (-1) (pyMin 1
              (((pyCountTokenMatches positive_words (pyLower text) : ℚ)
                  - (pyCountTokenMatches negative_words (pyLower text) : ℚ))
                / ((pyTokens (pyLower text)).length : ℚ) * 2))) ∧
      ((pyTokens (pyLower text)).length = 0 →
        (simple_analysis now text).sentiment_score.getD 0 = 0) := by
  simp only [simple_analysis, Option.getD_some]
  by_cases h : 0 < (pyTokens (pyLower text)).length
  · rw [if_pos h]
    refine ⟨⟨le_pyMax_left _ _, pyMax_le (by norm_num) (pyMin_le_left _ _)⟩,
      fun _ => rfl, fun hz => absurd h (by omega)⟩
  · rw [if_neg h]
    refine ⟨⟨by norm_num, by norm_num⟩, fun hpos => absurd hpos h, fun _ => rfl⟩

/-- C6 witness: for the two-token text `"good day"` the token count is
positive and the score equals the clamped formula; for the empty text the
token count is zero and the score is `0`. -/
theorem c6_witness :
    (0 < (pyTokens (pyLower ("good day".toList))).length ∧
        (simple_analysis ts0 ("good day".toList)).sentiment_score.getD 0
          = pyMax (-1) (pyMin 1
              (((pyCountTokenMatches positive_words (pyLower ("good day".toList)) : ℚ)
                  - (pyCountTokenMatches negative_words (pyLower ("good day".toList)) : ℚ))
                / ((pyTokens (pyLower ("good day".toList))).length : ℚ) * 2))) ∧
      ((pyTokens (pyLower [])).length = 0 ∧
        (simple_analysis ts0 []).sentiment_score.getD 0 = 0) :=
  ⟨⟨by decide, (c6_sentiment_score_clamped ts0 ("good day".toList)).2.1 (by decide)⟩,
    ⟨by decide, (c6_sentiment_score_clamped ts0 []).2.2 (by decide)⟩⟩

/-- C7: for every input text the fallback result sets
`depression_indicators` and `anxiety_indicators` to the negative-word
count, risk_level `"Medium"` exactly when that count exceeds `2` and
`"Low"` otherwise, confidence `0.5`, `is_sarcastic` false and
`true_emotion` `"unknown"`. -/
theorem c7_fallback_fixed_fields (now : String) (text : List Char) :
    (simple_analysis now text).depression_indicators
        = some (pyCountTokenMatches negative_words (pyLower text) : ℤ) ∧
      (simple_analysis now text).anxiety_indicators
        = some (pyCountTokenMatches negative_words (pyLower text) : ℤ) ∧
      (simple_analysis now text).risk_level
        = some (if 2 < pyCountTokenMatches negative_words (pyLower text) then "Medium"
            else "Low") ∧
      (simple_analysis now text).confidence = some (1 / 2 : ℚ) ∧
      (simple_analysis now text).is_sarcastic = some false ∧
      (simple_analysis now text).true_emotion = some "unknown" :=
  ⟨rfl, rfl, rfl, rfl, rfl, rfl⟩

/-- C8 counterexample: an analysis with confidence `0` is below `0.6`,
yet `generate_recommendations` appends no additional note at all, because
the source guards the note with `confidence > 0 and confidence < 0.6`. -/
theorem c8_counterexample :
    zeroConfAnalysis.confidence.getD 0 < (0.6 : ℚ) ∧
      (generate_recommendations zeroConfAnalysis).additional_notes = [] := by
  refine ⟨by with_unfolding_all decide, by with_unfolding_all decide⟩

/-- C8 amended: `generate_recommendations` appends the low-confidence note
exactly when `0 < confidence < 0.6`, and the additional notes are always
the concatenation, in this fixed order, of the sarcasm block, the
confidence block, the concerns block and the emotional-state block. -/
theorem c8_notes_order_and_confidence_gate (a : Analysis) :
    (generate_recommendations a).additional_notes
        = sarcasmPart a ++ confidencePart a ++ concernsPart a ++ emotionalStatePart a ∧
      (confidencePart a ≠ []
        ↔ 0 < a.confidence.getD 0 ∧ a.confidence.getD 0 < (0.6 : ℚ)) := by
  constructor
  · simp only [generate_recommendations, sarcasmPart, confidencePart, concernsPart,
      emotionalStatePart]
    split_ifs <;> simp
  · unfold confidencePart
    split_ifs with h
    · simp only [ne_eq, List.cons_ne_nil, not_false_eq_true, true_iff]
      exact h
    · simp only [ne_eq, not_true_eq_false, false_iff]
      exact h

/-- C9: for any single lexicon, the counts of both matchers are natural
numbers (hence non-negative) and are monotonic under concatenation with a
separating space: the count of `A ++ " " ++ B` is at least the maximum of
the counts of `A` and of `B`. -/
theorem c9_counts_monotone_under_append (lex : List (List Char)) (A B : List Char) :
    0 ≤ pyCountTokenMatches lex (pyLower A) ∧
      0 ≤ pyCountSubstrMatches lex (pyLower A) ∧
      max (pyCountTokenMatches lex (pyLower A)) (pyCountTokenMatches lex (pyLower B))
        ≤ pyCountTokenMatches lex (pyLower (A ++ ' ' :: B)) ∧
      max (pyCountSubstrMatches lex (pyLower A)) (pyCountSubstrMatches lex (pyLower B))
        ≤ pyCountSubstrMatches lex (pyLower (A ++ ' ' :: B)) := by
  refine ⟨Nat.zero_le _, Nat.zero_le _, ?_, ?_⟩
  · unfold pyCountTokenMatches
    rw [pyLower_append_sep, pyTokens_append_sep, List.countP_append]
    exact max_le (Nat.le_add_right _ _) (Nat.le_add_left _ _)
  · unfold pyCountSubstrMatches
    rw [pyLower_append_sep]
    apply max_le
    · apply List.countP_mono_left
      intro k _ hk
      have hk2 : k <:+: pyLower A := of_decide_eq_true hk
      have : k <:+: pyLower A ++ ' ' :: pyLower B :=
        hk2.trans ⟨[], ' ' :: pyLower B, by simp⟩
      exact decide_eq_true this
    · apply List.countP_mono_left
      intro k _ hk
      have hk2 : k <:+: pyLower B := of_decide_eq_true hk
      have : k <:+: pyLower A ++ ' ' :: pyLower B :=
        hk2.trans ⟨pyLower A ++ [' '], [], by simp⟩
      exact decide_eq_true this

/-- C10: adding a session record under an IC number that is not a key of
the patient store leaves the store completely unchanged; the operation is
total (raises nothing) and, like the Python method returning `None`, gives
the caller no not-found indication. -/
theorem c10_add_session_unknown_ic_noop (db : EMRDatabase) (ic_number : String)
    (session_data : SessionData) (h : db.patients.lookup ic_number = none) :
    add_session_record db ic_number session_data = db := by
  simp [add_session_record, h]

/-- C10 witness: the seeded store has no patient `"999999999999"`, and
adding a session under that IC number returns the store unchanged. -/
theorem c10_witness :
    initial_emr.patients.lookup "999999999999" = none ∧
      add_session_record initial_emr "999999999999" ⟨ts0, [], emptyAnalysis⟩ = initial_emr :=
  ⟨by decide, c10_add_session_unknown_ic_noop initial_emr "999999999999"
    ⟨ts0, [], emptyAnalysis⟩ (by decide)⟩

end Mindbridge
